import Mathlib

/-!
# Verification of the `zenml_sql_example` repository

A shallow embedding, in Lean 4, of the pure computational core of the
repository: the `SQLQuery` dataclass with its serialization round trip
(`sql_executor.py`), the mock execution engines (`sql_executor.py` and
`simple_sql_pipeline.py`), the HTML result-table renderer, the
materializer's keyword/metadata/CSV generators (`sql_materializer.py`),
and the batch runner loop of `simple_sql_pipeline.py`.

Python strings are modelled as Lean `String`s, Python `datetime` values
as a record of calendar fields, and wall-clock effects (`utcnow`,
`time.time`) are threaded in as explicit parameters.
-/

namespace ZenmlSql

/-! ## Python string helpers -/

/-- Model of Python's `str.upper` restricted to ASCII (all strings the
repository scans for are ASCII SQL keywords). -/
def pyUpper (s : String) : String :=
  ⟨s.data.map Char.toUpper⟩

/-- `hasSub hay needle` models Python's substring test `needle in hay`
on the underlying character lists. -/
def hasSub : List Char → List Char → Bool
  | hay, needle =>
    if needle.isPrefixOf hay then true
    else
      match hay with
      | [] => false
      | _ :: t => hasSub t needle

/-- Python's `needle in hay` on strings. -/
def pyContains (hay needle : String) : Bool :=
  hasSub hay.data needle.data

/-! ## Decimal digit printing and reading

Machinery to model Python's zero-padded decimal formatting
(`%04d`-style fields of `datetime.isoformat` / `strftime`) and the
fixed-width numeric fields read back by `datetime.fromisoformat`. -/

/-- Zero-padded base-10 rendering of `n` to width `w`, most significant
digit first: e.g. `padNat 4 7 = ['0','0','0','7']` (defined for the
in-range values `n < 10 ^ w` that the `datetime` fields supply). -/
def padNat : Nat → Nat → List Char
  | 0, _ => []
  | w + 1, n => Nat.digitChar (n / 10 ^ w) :: padNat w (n % 10 ^ w)

/-- Read a list of decimal digit characters, most significant first. -/
def readNat (cs : List Char) : Nat :=
  cs.foldl (fun a c => a * 10 + (c.toNat - 48)) 0

/-- Consume exactly `w` decimal digits from the front of `cs`,
returning the value and the rest; fails when fewer than `w` digit
characters are available. -/
def takeNum (w : Nat) (cs : List Char) : Option (Nat × List Char) :=
  let pre := cs.take w
  if pre.length = w ∧ pre.all Char.isDigit then some (readNat pre, cs.drop w)
  else none

theorem digitChar_isDigit {d : Nat} (h : d < 10) : (Nat.digitChar d).isDigit = true := by
  interval_cases d <;> rfl

theorem digitChar_toNat {d : Nat} (h : d < 10) : (Nat.digitChar d).toNat - 48 = d := by
  interval_cases d <;> rfl

theorem padNat_length (w n : Nat) : (padNat w n).length = w := by
  induction w generalizing n with
  | zero => rfl
  | succ w ih => simp [padNat, ih]

theorem padNat_all_digits {w n : Nat} (h : n < 10 ^ w) :
    (padNat w n).all Char.isDigit = true := by
  induction w generalizing n with
  | zero => rfl
  | succ w ih =>
    have hd : n / 10 ^ w < 10 := by
      rw [Nat.div_lt_iff_lt_mul (Nat.pos_pow_of_pos w (by norm_num))]
      calc n < 10 ^ (w + 1) := h
      _ = 10 * 10 ^ w := by ring
      _ ≤ 10 * 10 ^ w := le_refl _
    have hm : n % 10 ^ w < 10 ^ w :=
      Nat.mod_lt _ (Nat.pos_pow_of_pos w (by norm_num))
    simp [padNat, digitChar_isDigit hd, ih hm]

theorem foldl_padNat {w : Nat} : ∀ {n : Nat} (a : Nat), n < 10 ^ w →
    (padNat w n).foldl (fun a c => a * 10 + (c.toNat - 48)) a = a * 10 ^ w + n := by
  induction w with
  | zero =>
    intro n a h
    interval_cases n
    simp [padNat]
  | succ w ih =>
    intro n a h
    have hd : n / 10 ^ w < 10 := by
      rw [Nat.div_lt_iff_lt_mul (Nat.pos_pow_of_pos w (by norm_num))]
      calc n < 10 ^ (w + 1) := h
      _ = 10 * 10 ^ w := by ring
      _ ≤ 10 * 10 ^ w := le_refl _
    have hm : n % 10 ^ w < 10 ^ w :=
      Nat.mod_lt _ (Nat.pos_pow_of_pos w (by norm_num))
    simp only [padNat, List.foldl_cons]
    rw [digitChar_toNat hd, ih _ hm]
    calc (a * 10 + n / 10 ^ w) * 10 ^ w + n % 10 ^ w
        = a * 10 ^ (w + 1) + (10 ^ w * (n / 10 ^ w) + n % 10 ^ w) := by ring
      _ = a * 10 ^ (w + 1) + n := by rw [Nat.div_add_mod]

theorem readNat_padNat {w n : Nat} (h : n < 10 ^ w) : readNat (padNat w n) = n := by
  unfold readNat
  rw [foldl_padNat 0 h]
  omega

theorem takeNum_padNat {w n : Nat} (h : n < 10 ^ w) (rest : List Char) :
    takeNum w (padNat w n ++ rest) = some (n, rest) := by
  unfold takeNum
  have hlen := padNat_length w n
  rw [List.take_left' hlen, List.drop_left' hlen]
  rw [if_pos ⟨hlen, padNat_all_digits h⟩, readNat_padNat h]

/-! ## The `datetime` model

Python `datetime` values, as used by `sql_executor.py`
(`datetime.utcnow`, `isoformat`, `fromisoformat`, `strftime`, `str`).
Only the calendar fields are modelled; "now" is threaded into the
embedded functions as an explicit parameter wherever the source calls
`datetime.utcnow()` or measures wall-clock time. -/

structure Datetime where
  year : Nat
  month : Nat
  day : Nat
  hour : Nat
  minute : Nat
  second : Nat
  microsecond : Nat
  deriving DecidableEq, Repr

/-- Days in a month, with the Gregorian leap-year rule, as enforced by
Python's `datetime` constructor. -/
def daysInMonth (year month : Nat) : Nat :=
  if month = 2 then
    if year % 4 = 0 ∧ (year % 100 ≠ 0 ∨ year % 400 = 0) then 29 else 28
  else if month = 4 ∨ month = 6 ∨ month = 9 ∨ month = 11 then 30
  else 31

/-- The field ranges Python's `datetime` constructor accepts
(`MINYEAR = 1`, `MAXYEAR = 9999`, etc.). -/
def isValidDatetime (d : Datetime) : Bool :=
  1 ≤ d.year ∧ d.year ≤ 9999 ∧
  1 ≤ d.month ∧ d.month ≤ 12 ∧
  1 ≤ d.day ∧ d.day ≤ daysInMonth d.year d.month ∧
  d.hour ≤ 23 ∧ d.minute ≤ 59 ∧ d.second ≤ 59 ∧ d.microsecond ≤ 999999

/-- Character stream of `datetime.isoformat()`:
`YYYY-MM-DDTHH:MM:SS`, extended with `.ffffff` exactly when the
microsecond field is nonzero (Python omits the fraction when it is 0). -/
def isoChars (d : Datetime) : List Char :=
  padNat 4 d.year ++ ('-' :: (padNat 2 d.month ++ ('-' :: (padNat 2 d.day ++
    ('T' :: (padNat 2 d.hour ++ (':' :: (padNat 2 d.minute ++ (':' :: (padNat 2 d.second ++
    (if d.microsecond = 0 then [] else '.' :: padNat 6 d.microsecond)))))))))))

/-- Python's `datetime.isoformat()`. -/
def Datetime.isoformat (d : Datetime) : String :=
  ⟨isoChars d⟩

/-- Python's `str(datetime)`: like `isoformat` but with a space
separating date and time. -/
def Datetime.pyStr (d : Datetime) : String :=
  ⟨padNat 4 d.year ++ ('-' :: (padNat 2 d.month ++ ('-' :: (padNat 2 d.day ++
    (' ' :: (padNat 2 d.hour ++ (':' :: (padNat 2 d.minute ++ (':' :: (padNat 2 d.second ++
    (if d.microsecond = 0 then [] else '.' :: padNat 6 d.microsecond)))))))))))⟩

/-- `d.strftime('%Y%m%d_%H%M%S')`, as used for the default query name. -/
def Datetime.strftimeCompact (d : Datetime) : String :=
  ⟨padNat 4 d.year ++ (padNat 2 d.month ++ (padNat 2 d.day ++
    ('_' :: (padNat 2 d.hour ++ (padNat 2 d.minute ++ padNat 2 d.second)))))⟩

/-- Expect the character `c` at the head of the stream. -/
def expectChar (c : Char) : List Char → Option (List Char)
  | x :: rest => if x = c then some rest else none
  | [] => none

/-- Succeed with `d` on an exhausted input stream, when `d` passes the
`datetime` constructor's range checks. -/
def checkValid (d : Datetime) (cs : List Char) : Option Datetime :=
  match cs with
  | [] => if isValidDatetime d then some d else none
  | _ => none

/-- The optional `.ffffff` microsecond fraction of an ISO time. -/
def parseFrac : List Char → Option (Nat × List Char)
  | [] => some (0, [])
  | '.' :: cs => takeNum 6 cs
  | _ => none

/-- The `HH:MM:SS[.ffffff]` time part of an ISO string. -/
def parseTimePart (y mo dy : Nat) (cs : List Char) : Option Datetime := do
  let (h, cs) ← takeNum 2 cs
  let cs ← expectChar ':' cs
  let (mi, cs) ← takeNum 2 cs
  let cs ← expectChar ':' cs
  let (se, cs) ← takeNum 2 cs
  let (us, cs) ← parseFrac cs
  checkValid ⟨y, mo, dy, h, mi, se, us⟩ cs

/-- Parser behind `datetime.fromisoformat`, modelled on the formats
Python accepts: a `YYYY-MM-DD` date, optionally followed by any single
separator character and a `HH:MM:SS` time with an optional `.ffffff`
fraction; out-of-range field values are rejected (Python's constructor
raises `ValueError` on them). -/
def parseIso (cs : List Char) : Option Datetime := do
  let (y, cs) ← takeNum 4 cs
  let cs ← expectChar '-' cs
  let (mo, cs) ← takeNum 2 cs
  let cs ← expectChar '-' cs
  let (dy, cs) ← takeNum 2 cs
  match cs with
  | [] => checkValid ⟨y, mo, dy, 0, 0, 0, 0⟩ []
  | _sep :: cs => parseTimePart y mo dy cs

theorem expectChar_cons_self (c : Char) (t : List Char) :
    expectChar c (c :: t) = some t := by
  simp [expectChar]

theorem daysInMonth_le (y m : Nat) : daysInMonth y m ≤ 31 := by
  unfold daysInMonth; split
  · split <;> omega
  · split <;> omega

theorem parseIso_isoChars {d : Datetime} (h : isValidDatetime d = true) :
    parseIso (isoChars d) = some d := by
  obtain ⟨y, mo, dy, hh, mi, se, us⟩ := d
  simp only [isValidDatetime, decide_eq_true_eq] at h
  obtain ⟨h1, h2, h3, h4, h5, h6, h7, h8, h9, h10⟩ := h
  have hy : y < 10 ^ 4 := by omega
  have hmo : mo < 10 ^ 2 := by omega
  have hdy : dy < 10 ^ 2 := by
    have := daysInMonth_le y mo; omega
  have hhh : hh < 10 ^ 2 := by omega
  have hmi : mi < 10 ^ 2 := by omega
  have hse : se < 10 ^ 2 := by omega
  have hvalid : isValidDatetime ⟨y, mo, dy, hh, mi, se, us⟩ = true := by
    simp only [isValidDatetime, decide_eq_true_eq]
    exact ⟨h1, h2, h3, h4, h5, h6, h7, h8, h9, h10⟩
  have hfrac : parseFrac (if us = 0 then [] else '.' :: padNat 6 us) = some (us, []) := by
    by_cases hus : us = 0
    · subst hus; rw [if_pos rfl]; rfl
    · rw [if_neg hus]
      show parseFrac ('.' :: padNat 6 us) = some (us, [])
      simp only [parseFrac]
      rw [show (padNat 6 us : List Char) = padNat 6 us ++ [] by simp,
        takeNum_padNat (show us < 10 ^ 6 by omega)]
  simp only [isoChars, parseIso, Option.bind_eq_bind]
  rw [takeNum_padNat hy]
  simp only [Option.some_bind, expectChar_cons_self]
  rw [takeNum_padNat hmo]
  simp only [Option.some_bind, expectChar_cons_self]
  rw [takeNum_padNat hdy]
  simp only [Option.some_bind]
  simp only [parseTimePart, Option.bind_eq_bind]
  rw [takeNum_padNat hhh]
  simp only [Option.some_bind, expectChar_cons_self]
  rw [takeNum_padNat hmi]
  simp only [Option.some_bind, expectChar_cons_self]
  rw [takeNum_padNat hse]
  simp only [Option.some_bind]
  rw [hfrac]
  simp only [Option.some_bind, checkValid]
  rw [if_pos hvalid]

/-! ## Python values and errors -/

/-- Python scalar values, as they occur in the repository's dicts
(parameter mappings, sample rows). -/
inductive PyVal where
  | int (n : Int)
  | str (s : String)
  deriving DecidableEq, Repr

/-- `str(value)` on a scalar. -/
def PyVal.pyStr : PyVal → String
  | .int n => toString n
  | .str s => s

/-- A Python dict with string keys, in insertion order (sample rows,
parameter mappings). `dict.get` returns the value of the first — and
only, for a real dict — binding. -/
abbrev PyDict := List (String × PyVal)

/-- Exceptions raised by the embedded code paths. -/
inductive PyErr where
  | keyError (key : String)
  | valueError (msg : String)
  deriving DecidableEq, Repr

/-- `datetime.fromisoformat`: parse or raise `ValueError`. -/
def fromisoformat (s : String) : Except PyErr Datetime :=
  match parseIso s.data with
  | some d => .ok d
  | none => .error (.valueError ("Invalid isoformat string: " ++ s))

theorem fromisoformat_isoformat {d : Datetime} (h : isValidDatetime d = true) :
    fromisoformat d.isoformat = .ok d := by
  unfold fromisoformat Datetime.isoformat
  rw [show (⟨isoChars d⟩ : String).data = isoChars d from rfl, parseIso_isoChars h]

/-! ## `SQLQuery` (`sql_executor.py`)

The dataclass, with the `Optional` typing of its Python fields.
Instances are built through `SQLQuery.make`, which embeds the dataclass
`__init__` together with `__post_init__`; `now` stands for
`datetime.utcnow()`. -/

structure SQLQuery where
  query : String
  name : Option String
  description : Option String
  parameters : Option PyDict
  created_at : Option Datetime
  deriving DecidableEq, Repr

/-- Dataclass construction followed by `__post_init__`: a missing
`created_at` defaults to `utcnow()`, and a missing `name` defaults to
`f"query_{self.created_at.strftime('%Y%m%d_%H%M%S')}"`. -/
def SQLQuery.make (query : String) (name description : Option String)
    (parameters : Option PyDict) (created_at : Option Datetime)
    (now : Datetime) : SQLQuery :=
  let created : Datetime := match created_at with
    | none => now
    | some c => c
  let name' : Option String := match name with
    | none => some ("query_" ++ created.strftimeCompact)
    | some s => some s
  ⟨query, name', description, parameters, some created⟩

/-- The dictionary consumed by `SQLQuery.from_dict` / produced by
`SQLQuery.to_dict`, restricted to the five keys the code touches.
`none` stands for an absent key (or, for `dict.get`-accessed keys,
equivalently a `None` value). -/
structure QueryDict where
  query : Option String
  name : Option String
  description : Option String
  parameters : Option PyDict
  created_at : Option String
  deriving DecidableEq, Repr

/-- `SQLQuery.to_dict`: `created_at` is rendered with `isoformat` when
set (a `datetime` is always truthy), `None` otherwise. -/
def SQLQuery.to_dict (s : SQLQuery) : QueryDict :=
  { query := some s.query
    name := s.name
    description := s.description
    parameters := s.parameters
    created_at := match s.created_at with
      | some c => some c.isoformat
      | none => none }

/-- `SQLQuery.from_dict`: parses `created_at` first (when the value is
present and truthy, i.e. a non-empty string — `ValueError` propagates
from `fromisoformat`), then reads the required `"query"` key
(`KeyError` when absent), then constructs via the dataclass
initializer. -/
def SQLQuery.from_dict (now : Datetime) (data : QueryDict) : Except PyErr SQLQuery :=
  let createdStep : Except PyErr (Option Datetime) :=
    match data.created_at with
    | some s => if s.data.isEmpty then .ok none else (fromisoformat s).map some
    | none => .ok none
  match createdStep with
  | .error e => .error e
  | .ok created_at =>
    match data.query with
    | none => .error (.keyError "query")
    | some query =>
      .ok (SQLQuery.make query data.name data.description data.parameters created_at now)

theorem isoformat_data_ne_nil {d : Datetime} (h : isValidDatetime d = true) :
    d.isoformat.data.isEmpty = false := by
  have hy : d.year < 10 ^ 4 := by
    simp only [isValidDatetime, decide_eq_true_eq] at h
    omega
  have hlen : (isoChars d).length ≠ 0 := by
    unfold isoChars
    rw [List.length_append, padNat_length 4 d.year]
    omega
  rw [show d.isoformat.data = isoChars d from rfl]
  cases hc : isoChars d with
  | nil => rw [hc] at hlen; simp at hlen
  | cons a t => rfl

/-- Round trip of the codec on any constructed record (one whose `name`
and `created_at` have been populated by `__post_init__`) with an
in-range timestamp. -/
theorem from_dict_to_dict (r : SQLQuery) (now : Datetime) {nm : String} {d : Datetime}
    (hname : r.name = some nm) (hca : r.created_at = some d)
    (hd : isValidDatetime d = true) :
    SQLQuery.from_dict now r.to_dict = .ok r := by
  obtain ⟨q, name, desc, params, ca⟩ := r
  simp only at hname hca
  subst hname hca
  simp only [SQLQuery.to_dict, SQLQuery.from_dict]
  rw [if_neg (by rw [isoformat_data_ne_nil hd]; simp)]
  rw [fromisoformat_isoformat hd]
  rfl

/-! ## Query execution (`sql_executor.py`) -/

/-- Model of Python's built-in `hash` on strings: an unspecified
string hash, stable within a process run; the repository only ever
displays it, so any concrete deterministic function models it. -/
def pyHash (s : String) : Int :=
  s.data.foldl (fun a c => a * 31 + (c.toNat : Int)) 0

/-- `str(x)` for an optional string (`str(None) = "None"`), as produced
by Python f-string interpolation. -/
def optStr (o : Option String) : String := o.getD "None"

/-- The heterogeneous result dicts returned by `SQLQuery.execute`:
`_mock_execute` fills the first group of keys, `_real_execute` the
second; `none` marks a key the respective branch does not emit. -/
structure ExecResult where
  status : String
  rows_affected : Option Nat
  execution_time_ms : Option Nat
  result_preview : Option (List PyDict)
  metadata_query_hash : Option Int
  metadata_executed_at : Option String
  message : Option String
  query : Option String
  mock : Option Bool
  deriving DecidableEq, Repr

/-- `SQLQuery._mock_execute`; `now` stands for the `datetime.utcnow()`
call in the metadata block. -/
def SQLQuery.mock_execute (s : SQLQuery) (now : Datetime) : ExecResult :=
  { status := "success"
    rows_affected := some 42
    execution_time_ms := some 150
    result_preview := some
      [ [("id", .int 1), ("name", .str "John Doe"), ("email", .str "john@example.com")]
      , [("id", .int 2), ("name", .str "Jane Smith"), ("email", .str "jane@example.com")]
      , [("id", .int 3), ("name", .str "Bob Johnson"), ("email", .str "bob@example.com")] ]
    metadata_query_hash := some (pyHash s.query)
    metadata_executed_at := some now.isoformat
    message := none
    query := none
    mock := none }

/-- The `bigquery_credentials` secret bundle (`secret_values`). -/
structure BQSecret where
  project_id : Option String
  private_key : Option String
  client_email : Option String
  deriving DecidableEq, Repr

/-- `SQLQuery._real_execute`; `secretLookup` is the outcome of
`client.get_secret("bigquery_credentials")`, with the raised
exception's message on the error side. -/
def SQLQuery.real_execute (s : SQLQuery) (secretLookup : Except String BQSecret) :
    ExecResult :=
  match secretLookup with
  | .ok sec =>
    { status := "success"
      rows_affected := none
      execution_time_ms := none
      result_preview := none
      metadata_query_hash := none
      metadata_executed_at := none
      message := some ("Would execute query using BigQuery project: " ++ optStr sec.project_id)
      query := some s.query
      mock := some true }
  | .error e =>
    { status := "error"
      rows_affected := none
      execution_time_ms := none
      result_preview := none
      metadata_query_hash := none
      metadata_executed_at := none
      message := some ("Failed to execute query: " ++ e)
      query := some s.query
      mock := none }

/-- `SQLQuery.execute(mock=...)`. -/
def SQLQuery.execute (s : SQLQuery) (mock : Bool) (now : Datetime)
    (secretLookup : Except String BQSecret) : ExecResult :=
  if mock then s.mock_execute now else s.real_execute secretLookup

/-! ## The HTML result table (`SQLQuery._format_result_table`) -/

/-- `row.get(header, "")` interpolated into the cell f-string:
the stringified value when the key is present, `""` otherwise. -/
def cellValue (row : PyDict) (header : String) : String :=
  match row.lookup header with
  | some v => v.pyStr
  | none => ""

/-- `SQLQuery._format_result_table`, with the source's two accumulation
loops rendered as left folds over the same data. -/
def format_result_table (results : List PyDict) : String :=
  match results with
  | [] => "<p>No results to display.</p>"
  | r0 :: _ =>
    let headers := r0.map Prod.fst
    let t0 := "<table style=\"width: 100%; border-collapse: collapse; margin: 10px 0;\">"
      ++ "<thead><tr>"
    let t1 := headers.foldl (fun acc header => acc
      ++ "<th style=\"border: 1px solid #ddd; padding: 8px; background: #f2f2f2;\">"
      ++ header ++ "</th>") t0
    let t2 := t1 ++ "</tr></thead><tbody>"
    let t3 := results.foldl (fun acc row =>
      (headers.foldl (fun acc2 header => acc2
        ++ "<td style=\"border: 1px solid #ddd; padding: 8px;\">"
        ++ cellValue row header ++ "</td>") (acc ++ "<tr>")) ++ "</tr>") t2
    t3 ++ "</tbody></table>"

/-- Concatenation of the renderings of a list's elements. -/
def strConcatMap {α : Type} (f : α → String) : List α → String
  | [] => ""
  | x :: t => f x ++ strConcatMap f t

/-- One header cell. -/
def thCell (header : String) : String :=
  "<th style=\"border: 1px solid #ddd; padding: 8px; background: #f2f2f2;\">"
    ++ header ++ "</th>"

/-- One data cell: the row's value for this header, or the empty string
when the row has no such key. -/
def tdCell (row : PyDict) (header : String) : String :=
  "<td style=\"border: 1px solid #ddd; padding: 8px;\">"
    ++ cellValue row header ++ "</td>"

/-- The table renderer as §4.3 of the spec words it: a fixed
"no results" placeholder for an empty preview; otherwise one header
cell per key of the first row (in that row's key order), one table row
per sample entry, each row holding one cell per header with the empty
string substituted for a missing key. -/
def formatResultTableSpec (results : List PyDict) : String :=
  match results with
  | [] => "<p>No results to display.</p>"
  | r0 :: _ =>
    let headers := r0.map Prod.fst
    "<table style=\"width: 100%; border-collapse: collapse; margin: 10px 0;\">"
      ++ "<thead><tr>" ++ strConcatMap thCell headers ++ "</tr></thead><tbody>"
      ++ strConcatMap (fun row => "<tr>" ++ strConcatMap (tdCell row) headers ++ "</tr>") results
      ++ "</tbody></table>"

theorem foldl_append_str {α : Type} (f : α → String) (l : List α) (s : String) :
    l.foldl (fun acc x => acc ++ f x) s = s ++ strConcatMap f l := by
  induction l generalizing s with
  | nil => simp [strConcatMap]
  | cons a t ih =>
    simp only [List.foldl_cons, strConcatMap, ih, String.append_assoc]

theorem format_result_table_eq_spec (results : List PyDict) :
    format_result_table results = formatResultTableSpec results := by
  cases results with
  | nil => rfl
  | cons r0 rest =>
    simp only [format_result_table, formatResultTableSpec]
    rw [List.foldl_ext _ (fun acc header => acc ++ thCell header) _
      (fun a h _ => by simp [thCell, String.append_assoc])]
    rw [foldl_append_str]
    rw [List.foldl_ext _
      (fun acc row => acc ++ ("<tr>" ++ strConcatMap (tdCell row) (r0.map Prod.fst) ++ "</tr>")) _
      (fun a row _ => by
        rw [List.foldl_ext _ (fun acc2 header => acc2 ++ tdCell row header) _
          (fun a2 h _ => by simp [tdCell, String.append_assoc])]
        rw [foldl_append_str]
        simp [String.append_assoc])]
    rw [foldl_append_str]

/-! ## The materializer (`sql_materializer.py`) -/

/-- The fixed keyword vocabulary of
`SQLQueryMaterializer._extract_sql_keywords`, in source order. -/
def sql_keywords_vocab : List String :=
  [ "SELECT", "FROM", "WHERE", "JOIN", "INNER JOIN", "LEFT JOIN", "RIGHT JOIN"
  , "GROUP BY", "ORDER BY", "HAVING", "INSERT", "UPDATE", "DELETE", "CREATE"
  , "ALTER", "DROP", "INDEX", "TABLE", "VIEW", "PROCEDURE", "FUNCTION"
  , "UNION", "INTERSECT", "EXCEPT", "WITH", "CTE", "WINDOW", "OVER"
  , "PARTITION BY", "ROW_NUMBER", "RANK", "DENSE_RANK", "COUNT", "SUM"
  , "AVG", "MIN", "MAX", "CASE", "WHEN", "THEN", "ELSE", "END" ]

/-- `SQLQueryMaterializer._extract_sql_keywords`: collect, in
vocabulary order, every keyword occurring as a literal substring of the
upper-cased query text. -/
def extract_sql_keywords (query : String) : List String :=
  sql_keywords_vocab.filter (fun keyword => pyContains (pyUpper query) keyword)

/-- Python truthiness of an optional dict (`bool(x)`): `False` for
`None` and for an empty mapping. -/
def pyTruthyDict (p : Option PyDict) : Bool :=
  match p with
  | some l => !l.isEmpty
  | none => false

/-- `len(data.parameters) if data.parameters else 0`. -/
def paramCount (p : Option PyDict) : Nat :=
  match p with
  | some l => if !l.isEmpty then l.length else 0
  | none => 0

/-- `", ".join(strings)`. -/
def joinSep (sep : String) : List String → String
  | [] => ""
  | [x] => x
  | x :: y :: t => x ++ sep ++ joinSep sep (y :: t)

/-- Metadata values (`MetadataType`): the value types the materializer
stores. -/
inductive MetaVal where
  | s (v : String)
  | i (n : Int)
  | b (v : Bool)
  | null
  deriving DecidableEq, Repr

/-- An optional string stored as a metadata value. -/
def MetaVal.ofOptStr : Option String → MetaVal
  | some v => MetaVal.s v
  | none => MetaVal.null

/-- `SQLQueryMaterializer.extract_metadata`: key/value pairs in the
source's insertion order, with the conditional `description` and
`sql_keywords` entries appended at the end. -/
def extract_metadata (data : SQLQuery) (now : Datetime) : List (String × MetaVal) :=
  let execution_result := data.execute true now (.error "")
  [ ("query_name", MetaVal.ofOptStr data.name)
  , ("query_length", .i data.query.length)
  , ("query_hash", .s (toString (pyHash data.query)))
  , ("has_parameters", .b (pyTruthyDict data.parameters))
  , ("parameter_count", .i (paramCount data.parameters))
  , ("execution_status", .s execution_result.status)
  , ("rows_affected", .i (execution_result.rows_affected.getD 0))
  , ("execution_time_ms", .i (execution_result.execution_time_ms.getD 0))
  , ("created_at", match data.created_at with
      | some c => .s c.isoformat
      | none => .null) ]
  ++ (match data.description with
      | some desc => if desc.data.isEmpty then [] else [("description", MetaVal.s desc)]
      | none => [])
  ++ (let sql_keywords := extract_sql_keywords data.query
      if sql_keywords.isEmpty then []
      else [("sql_keywords", MetaVal.s (joinSep ", " sql_keywords))])

/-- `f"{b}"` for a Python bool. -/
def pyBoolStr (b : Bool) : String := if b then "True" else "False"

/-- `SQLQueryMaterializer._generate_csv_metadata`. The Python source
writes the separator as `"\\n"` inside an ordinary (non-raw) string,
which denotes the two characters backslash and `n` — not a newline —
and the embedding reproduces exactly that. -/
def generate_csv_metadata (data : SQLQuery) (now : Datetime) : String :=
  let execution_result := data.execute true now (.error "")
  "attribute,value\\n"
  ++ "name," ++ optStr data.name ++ "\\n"
  ++ "query_length," ++ toString data.query.length ++ "\\n"
  ++ "query_hash," ++ toString (pyHash data.query) ++ "\\n"
  ++ "created_at," ++ (match data.created_at with
      | some c => c.pyStr
      | none => "None") ++ "\\n"
  ++ "execution_status," ++ execution_result.status ++ "\\n"
  ++ "rows_affected," ++ toString (execution_result.rows_affected.getD 0) ++ "\\n"
  ++ "execution_time_ms," ++ toString (execution_result.execution_time_ms.getD 0) ++ "\\n"
  ++ "has_parameters," ++ pyBoolStr (pyTruthyDict data.parameters) ++ "\\n"
  ++ "parameter_count," ++ toString (paramCount data.parameters) ++ "\\n"

/-! ## The batch pipeline (`simple_sql_pipeline.py`) -/

/-- The `db_credentials` secret bundle (a field-name to value map). -/
abbrev DBSecret := List (String × String)

/-- The result dict built by the `execute_sql_script` step. The success
path fills `result_type`, `sample_data` and `query_length`; the
step's catch-all error path fills `error_message` instead. -/
structure ScriptResult where
  script_name : String
  status : String
  rows_affected : Nat
  execution_time_ms : Nat
  result_type : Option String
  sample_data : Option (List PyDict)
  query_length : Option Nat
  error_message : Option String
  deriving DecidableEq, Repr

/-- The `execute_sql_script` step. `secretLookup` is the outcome of
`client.get_secret("db_credentials")` (the inner `try` turns a failure
into `db_secret = None` and proceeds); `elapsedMs` is the measured
wall-clock duration of the simulated work. -/
def execute_sql_script (secretLookup : Except Unit DBSecret)
    (script_name query : String) (elapsedMs : Nat) : ScriptResult :=
  let _db_secret : Option DBSecret := match secretLookup with
    | .ok s => some s
    | .error _ => none
  let branch : Nat × String × List PyDict :=
    if pyContains (pyUpper query) "SELECT" then
      (0, "query",
        [ [("id", .int 1), ("name", .str "John Doe"), ("status", .str "active")]
        , [("id", .int 2), ("name", .str "Jane Smith"), ("status", .str "active")]
        , [("id", .int 3), ("name", .str "Bob Johnson"), ("status", .str "inactive")] ])
    else if pyContains (pyUpper query) "INSERT" then (5, "insert", [])
    else if pyContains (pyUpper query) "UPDATE" then (12, "update", [])
    else if pyContains (pyUpper query) "DELETE" then (3, "delete", [])
    else (0, "unknown", [])
  { script_name := script_name
    status := "success"
    rows_affected := branch.1
    execution_time_ms := elapsedMs
    result_type := some branch.2.1
    sample_data := some branch.2.2
    query_length := some query.length
    error_message := none }

/-- The `validate_results` step: a result passes exactly when its
status is `"success"`. -/
def validate_results (results : ScriptResult) : Bool :=
  results.status == "success"

/-- The driving loop of `simple_sql_pipeline`: run each script in
order, validate its result, collect the result, and stop — without
touching later scripts — as soon as validation fails. `execStep`
abstracts the `execute_sql_script` step invocation. -/
def run_scripts (execStep : String → String → ScriptResult) :
    List (String × String) → List ScriptResult
  | [] => []
  | (name, query) :: rest =>
    let result := execStep name query
    if validate_results result then result :: run_scripts execStep rest
    else [result]

/-! ## Spec-side companion definitions

Definitions following the spec's wording, to be compared with the
embedded source functions. -/

/-- The verbs of §4.1, in the order the source checks them. -/
def mockVerbs : List String := ["SELECT", "INSERT", "UPDATE", "DELETE"]

/-- Spec §4.1: the first verb of the list found (as a substring) in the
upper-cased query text. -/
def specFirstVerb (query : String) : Option String :=
  mockVerbs.find? (fun v => pyContains (pyUpper query) v)

/-- Spec §4.1: `resultType` per classified verb, `unknown` fallback. -/
def specResultType (query : String) : String :=
  match specFirstVerb query with
  | some "SELECT" => "query"
  | some "INSERT" => "insert"
  | some "UPDATE" => "update"
  | some "DELETE" => "delete"
  | _ => "unknown"

/-- Spec §4.1: canned row counts per verb
(SELECT→0, INSERT→5, UPDATE→12, DELETE→3, unknown→0). -/
def specRowsAffected (query : String) : Nat :=
  match specFirstVerb query with
  | some "SELECT" => 0
  | some "INSERT" => 5
  | some "UPDATE" => 12
  | some "DELETE" => 3
  | _ => 0

/-- The three fixed sample rows of the SELECT branch. -/
def selectSampleRows : List PyDict :=
  [ [("id", .int 1), ("name", .str "John Doe"), ("status", .str "active")]
  , [("id", .int 2), ("name", .str "Jane Smith"), ("status", .str "active")]
  , [("id", .int 3), ("name", .str "Bob Johnson"), ("status", .str "inactive")] ]

/-- Spec §4.1: sample data only for SELECT-classified queries. -/
def specSampleData (query : String) : List PyDict :=
  if specFirstVerb query = some "SELECT" then selectSampleRows else []

/-! ## Sample values used by concrete witnesses -/

/-- A concrete in-range timestamp. -/
def sampleDt : Datetime := ⟨2023, 5, 17, 14, 30, 45, 0⟩

/-- Another concrete timestamp (with microseconds), used as "now". -/
def sampleDtUs : Datetime := ⟨2024, 1, 2, 3, 4, 5, 678901⟩

/-- A concrete constructed record. -/
def sampleRecord : SQLQuery := SQLQuery.make "SELECT 1" (some "q") none none none sampleDt

/-- A `from_dict` input with no `"query"` key and an unparseable
`"created_at"` value. -/
def garbageDict : QueryDict := ⟨none, none, none, none, some "garbage"⟩

/-- A `from_dict` input with no keys at all. -/
def emptyDict : QueryDict := ⟨none, none, none, none, none⟩

theorem query_append_ne_empty (t : String) : "query_" ++ t ≠ "" := by
  intro h
  have h2 := congrArg String.length h
  rw [String.length_append] at h2
  have h3 : ("query_" : String).length = 6 := rfl
  have h4 : ("" : String).length = 0 := rfl
  omega

/-! ## The claims -/

/-- **C1.** For every constructed `QueryRecord` `r` (its `name` and
`createdAt` populated, the timestamp in `datetime`'s range),
`SQLQuery.from_dict (SQLQuery.to_dict r)` succeeds and reproduces `r`'s
`queryText`, `name`, `description` and `parameters` exactly, and its
`createdAt` exactly (hence in particular up to the ISO-8601 format's
resolution, which the `isoformat`/`fromisoformat` pair preserves in
full down to microseconds). -/
theorem claim_C1_roundtrip (r : SQLQuery) (now : Datetime) (nm : String) (d : Datetime)
    (hname : r.name = some nm) (hca : r.created_at = some d)
    (hd : isValidDatetime d = true) :
    ∃ r' : SQLQuery, SQLQuery.from_dict now r.to_dict = .ok r' ∧
      r'.query = r.query ∧ r'.name = r.name ∧ r'.description = r.description ∧
      r'.parameters = r.parameters ∧ r'.created_at = r.created_at :=
  ⟨r, from_dict_to_dict r now hname hca hd, rfl, rfl, rfl, rfl, rfl⟩

/-- Concrete instantiation of C1 at `sampleRecord`. -/
theorem claim_C1_roundtrip_witness :
    sampleRecord.name = some "q" ∧ sampleRecord.created_at = some sampleDt ∧
    isValidDatetime sampleDt = true ∧
    ∃ r' : SQLQuery, SQLQuery.from_dict sampleDtUs sampleRecord.to_dict = .ok r' ∧
      r'.query = sampleRecord.query ∧ r'.name = sampleRecord.name ∧
      r'.description = sampleRecord.description ∧
      r'.parameters = sampleRecord.parameters ∧
      r'.created_at = sampleRecord.created_at :=
  ⟨rfl, rfl, by decide,
    claim_C1_roundtrip sampleRecord sampleDtUs "q" sampleDt rfl rfl (by decide)⟩

/-- **C2.** The mock engine of `execute_sql_script` classifies every
query text by the first matching verb among SELECT, INSERT, UPDATE,
DELETE found as a substring of the upper-cased text (`unknown`
otherwise) and returns that verb's canned result: SELECT gives
`result_type "query"`, 0 rows affected and exactly the 3 fixed sample
rows with keys `id`, `name`, `status`; INSERT gives 5 rows and no
sample data; UPDATE 12; DELETE 3; unknown 0. -/
theorem claim_C2_mock_classification (secretLookup : Except Unit DBSecret)
    (script_name query : String) (elapsedMs : Nat) :
    (execute_sql_script secretLookup script_name query elapsedMs).result_type
        = some (specResultType query) ∧
    (execute_sql_script secretLookup script_name query elapsedMs).rows_affected
        = specRowsAffected query ∧
    (execute_sql_script secretLookup script_name query elapsedMs).sample_data
        = some (specSampleData query) ∧
    selectSampleRows.length = 3 ∧
    selectSampleRows.map (fun row => row.map Prod.fst) =
      [["id", "name", "status"], ["id", "name", "status"], ["id", "name", "status"]] := by
  have main : (execute_sql_script secretLookup script_name query elapsedMs).result_type
        = some (specResultType query) ∧
      (execute_sql_script secretLookup script_name query elapsedMs).rows_affected
        = specRowsAffected query ∧
      (execute_sql_script secretLookup script_name query elapsedMs).sample_data
        = some (specSampleData query) := by
    cases hS : pyContains (pyUpper query) "SELECT" <;>
      cases hI : pyContains (pyUpper query) "INSERT" <;>
        cases hU : pyContains (pyUpper query) "UPDATE" <;>
          cases hD : pyContains (pyUpper query) "DELETE" <;>
            simp [execute_sql_script, specResultType, specRowsAffected, specSampleData,
              specFirstVerb, mockVerbs, List.find?, hS, hI, hU, hD, selectSampleRows]
  exact ⟨main.1, main.2.1, main.2.2, rfl, rfl⟩

/-- **C3.** The batch loop of `simple_sql_pipeline`, on five scripts
whose fourth is the first to fail validation, produces exactly the
results of the first four scripts (the failing fourth included and
reported last) and never invokes the executor on the fifth: the run is
identical to a run on the first four scripts alone. -/
theorem claim_C3_stop_on_first_failure (execStep : String → String → ScriptResult)
    (s1 s2 s3 s4 s5 : String × String)
    (h1 : validate_results (execStep s1.1 s1.2) = true)
    (h2 : validate_results (execStep s2.1 s2.2) = true)
    (h3 : validate_results (execStep s3.1 s3.2) = true)
    (h4 : validate_results (execStep s4.1 s4.2) = false) :
    run_scripts execStep [s1, s2, s3, s4, s5] =
      [execStep s1.1 s1.2, execStep s2.1 s2.2, execStep s3.1 s3.2, execStep s4.1 s4.2] ∧
    run_scripts execStep [s1, s2, s3, s4, s5] = run_scripts execStep [s1, s2, s3, s4] := by
  obtain ⟨n1, q1⟩ := s1
  obtain ⟨n2, q2⟩ := s2
  obtain ⟨n3, q3⟩ := s3
  obtain ⟨n4, q4⟩ := s4
  obtain ⟨n5, q5⟩ := s5
  simp only at h1 h2 h3 h4
  constructor <;> simp [run_scripts, h1, h2, h3, h4]

/-- A demonstration executor whose fourth script fails validation. -/
def demoStep (name _query : String) : ScriptResult :=
  if name == "s4" then
    ⟨name, "error", 0, 0, none, none, none, some "validation failure"⟩
  else
    ⟨name, "success", 1, 0, none, none, none, none⟩

/-- Concrete instantiation of C3 on five demonstration scripts. -/
theorem claim_C3_stop_on_first_failure_witness :
    validate_results (demoStep "s1" "a") = true ∧
    validate_results (demoStep "s2" "b") = true ∧
    validate_results (demoStep "s3" "c") = true ∧
    validate_results (demoStep "s4" "d") = false ∧
    run_scripts demoStep [("s1", "a"), ("s2", "b"), ("s3", "c"), ("s4", "d"), ("s5", "e")] =
      [demoStep "s1" "a", demoStep "s2" "b", demoStep "s3" "c", demoStep "s4" "d"] ∧
    run_scripts demoStep [("s1", "a"), ("s2", "b"), ("s3", "c"), ("s4", "d"), ("s5", "e")] =
      run_scripts demoStep [("s1", "a"), ("s2", "b"), ("s3", "c"), ("s4", "d")] :=
  ⟨rfl, rfl, rfl, rfl,
    (claim_C3_stop_on_first_failure demoStep ("s1", "a") ("s2", "b") ("s3", "c")
      ("s4", "d") ("s5", "e") rfl rfl rfl rfl).1,
    (claim_C3_stop_on_first_failure demoStep ("s1", "a") ("s2", "b") ("s3", "c")
      ("s4", "d") ("s5", "e") rfl rfl rfl rfl).2⟩

/-- **C4, counterexample.** On a mapping with no `"query"` key but a
malformed `"created_at"` value, `from_dict` fails with the timestamp
parse error (`ValueError`), not the missing-required-field error
(`KeyError "query"`, the spec's `MalformedRecordError`): the claim's
"fails with a MalformedRecordError" does not hold of every mapping
lacking `queryText`. -/
theorem claim_C4_counterexample :
    garbageDict.query = none ∧
    SQLQuery.from_dict sampleDt garbageDict =
      .error (.valueError "Invalid isoformat string: garbage") ∧
    PyErr.valueError "Invalid isoformat string: garbage" ≠ PyErr.keyError "query" :=
  ⟨rfl, rfl, by decide⟩

/-- **C4, amended.** For every input mapping lacking the required
`"query"` key, deserialization fails; it fails with the
missing-required-field error `KeyError "query"` (the spec's
`MalformedRecordError`) whenever the `"created_at"` field is absent,
empty, or a parseable ISO string — only a present-and-malformed
`"created_at"` preempts it with a `ValueError`. -/
theorem claim_C4_amended (now : Datetime) (data : QueryDict) (hq : data.query = none) :
    (∃ e, SQLQuery.from_dict now data = .error e) ∧
    ((data.created_at = none ∨
        ∃ s, data.created_at = some s ∧
          (s.data.isEmpty = true ∨ ∃ dt, parseIso s.data = some dt)) →
      SQLQuery.from_dict now data = .error (.keyError "query")) := by
  obtain ⟨q, nm, desc, par, ca⟩ := data
  simp only at hq
  subst hq
  constructor
  · cases ca with
    | none => exact ⟨.keyError "query", rfl⟩
    | some s =>
      by_cases he : s.data.isEmpty
      · exact ⟨.keyError "query", by simp [SQLQuery.from_dict, he]⟩
      · cases hp : parseIso s.data with
        | none =>
          exact ⟨.valueError ("Invalid isoformat string: " ++ s),
            by simp [SQLQuery.from_dict, he, fromisoformat, hp, Except.map]⟩
        | some dt =>
          exact ⟨.keyError "query",
            by simp [SQLQuery.from_dict, he, fromisoformat, hp, Except.map]⟩
  · intro hgood
    rcases hgood with hnone | ⟨s, hs, hcase⟩
    · simp only at hnone
      subst hnone
      rfl
    · simp only at hs
      subst hs
      rcases hcase with he | ⟨dt, hp⟩
      · simp [SQLQuery.from_dict, he]
      · by_cases he : s.data.isEmpty
        · simp [SQLQuery.from_dict, he]
        · simp [SQLQuery.from_dict, he, fromisoformat, hp, Except.map]

/-- Concrete instantiation of C4 (amended) at the empty mapping. -/
theorem claim_C4_amended_witness :
    emptyDict.query = none ∧
    (∃ e, SQLQuery.from_dict sampleDt emptyDict = .error e) ∧
    SQLQuery.from_dict sampleDt emptyDict = .error (.keyError "query") :=
  ⟨rfl, (claim_C4_amended sampleDt emptyDict rfl).1,
    (claim_C4_amended sampleDt emptyDict rfl).2 (Or.inl rfl)⟩

/-- **C5.** The HTML table renderer equals, on every sample-preview
list, the renderer described by the spec: the fixed "no results"
placeholder on an empty list; otherwise one header cell per key of the
first row in that row's key order, one table row per sample entry, and
the empty string substituted for a missing key. -/
theorem claim_C5_table_renderer (results : List PyDict) :
    format_result_table results = formatResultTableSpec results ∧
    format_result_table ([] : List PyDict) = "<p>No results to display.</p>" :=
  ⟨format_result_table_eq_spec results, rfl⟩

/-- **C6.** A vocabulary keyword is in the extractor's matched list iff
it occurs as a literal substring of the upper-cased query text; the
matched list is a sublist of (hence ordered like) the fixed vocabulary;
and on a query containing `WITH`, `OVER` and `JOIN` all three appear,
in vocabulary order (`JOIN` before `WITH` before `OVER`). -/
theorem claim_C6_keyword_matching (query k : String) :
    (k ∈ extract_sql_keywords query ↔
      k ∈ sql_keywords_vocab ∧ pyContains (pyUpper query) k = true) ∧
    (extract_sql_keywords query).Sublist sql_keywords_vocab ∧
    (pyContains (pyUpper query) "WITH" = true →
      pyContains (pyUpper query) "OVER" = true →
      pyContains (pyUpper query) "JOIN" = true →
      (["JOIN", "WITH", "OVER"] : List String).Sublist (extract_sql_keywords query)) := by
  refine ⟨by simp [extract_sql_keywords, List.mem_filter], List.filter_sublist _, ?_⟩
  intro hW hO hJ
  have hsub : (["JOIN", "WITH", "OVER"] : List String).Sublist sql_keywords_vocab := by
    decide
  have hfil := hsub.filter (fun keyword => pyContains (pyUpper query) keyword)
  rwa [show (["JOIN", "WITH", "OVER"] : List String).filter
      (fun keyword => pyContains (pyUpper query) keyword) = ["JOIN", "WITH", "OVER"] by
    simp [List.filter, hW, hO, hJ]] at hfil

/-- Concrete instantiation of C6 on a query containing all three
keywords. -/
theorem claim_C6_keyword_matching_witness :
    pyContains (pyUpper "with a rank() over () join b") "WITH" = true ∧
    pyContains (pyUpper "with a rank() over () join b") "OVER" = true ∧
    pyContains (pyUpper "with a rank() over () join b") "JOIN" = true ∧
    (["JOIN", "WITH", "OVER"] : List String).Sublist
      (extract_sql_keywords "with a rank() over () join b") :=
  ⟨rfl, rfl, rfl,
    (claim_C6_keyword_matching "with a rank() over () join b" "WITH").2.2 rfl rfl rfl⟩

set_option maxRecDepth 4000 in
/-- **C7, code evidence.** The generated CSV document contains no
newline character at all: the Python source writes the separator as
`"\\n"` (backslash escaped inside a non-raw string), so the ten
`attribute,value` entries are separated by the two literal characters
`\` and `n` and the whole document is a single physical line — the
claimed newline-separated two-column lines never materialize. -/
theorem claim_C7_csv_separator_bug :
    (generate_csv_metadata sampleRecord sampleDt).data.count '\n' = 0 ∧
    (generate_csv_metadata sampleRecord sampleDt).data.count '\\' = 10 ∧
    generate_csv_metadata sampleRecord sampleDt =
      "attribute,value\\nname,q\\nquery_length,8\\nquery_hash,2347026341389\\ncreated_at,2023-05-17 14:30:45\\nexecution_status,success\\nrows_affected,42\\nexecution_time_ms,150\\nhas_parameters,False\\nparameter_count,0\\n" :=
  ⟨rfl, rfl, rfl⟩

/-- **C8, counterexample.** `__post_init__` only replaces a `None`
name: constructing a record with non-empty `queryText` but an
explicitly empty string as `name` leaves `name` empty, so "name is
non-empty after construction for every combination of constructor
arguments" fails. -/
theorem claim_C8_counterexample :
    ("SELECT 1" : String) ≠ "" ∧
    (SQLQuery.make "SELECT 1" (some "") none none none sampleDt).name = some "" :=
  ⟨by decide, rfl⟩

/-- **C8, amended.** After construction, `createdAt` is always set
(including when omitted, in which case it defaults to `utcnow()`), and
`name` is set and non-empty whenever the supplied `name` argument is
not the explicit empty string — in particular whenever it is omitted,
in which case the non-empty `query_`-prefixed timestamp name is
generated. -/
theorem claim_C8_amended (query : String) (name description : Option String)
    (parameters : Option PyDict) (created_at : Option Datetime) (now : Datetime) :
    (SQLQuery.make query name description parameters created_at now).created_at.isSome
      = true ∧
    (name ≠ some "" →
      ∃ s, (SQLQuery.make query name description parameters created_at now).name = some s
        ∧ s ≠ "") := by
  constructor
  · cases created_at <;> rfl
  · intro hname
    cases name with
    | none =>
      refine ⟨"query_" ++ (match created_at with
        | none => now
        | some c => c).strftimeCompact, ?_, query_append_ne_empty _⟩
      cases created_at <;> rfl
    | some s =>
      exact ⟨s, by cases created_at <;> rfl, fun h => hname (by rw [h])⟩

/-- Concrete instantiation of C8 (amended), both with a supplied
non-empty name and with an omitted name. -/
theorem claim_C8_amended_witness :
    (some "q" : Option String) ≠ some "" ∧
    (SQLQuery.make "SELECT 1" (some "q") none none none sampleDt).created_at.isSome
      = true ∧
    (∃ s, (SQLQuery.make "SELECT 1" (some "q") none none none sampleDt).name = some s
      ∧ s ≠ "") ∧
    (∃ s, (SQLQuery.make "SELECT 1" none none none none sampleDt).name = some s
      ∧ s ≠ "") :=
  ⟨by decide,
    (claim_C8_amended "SELECT 1" (some "q") none none none sampleDt).1,
    (claim_C8_amended "SELECT 1" (some "q") none none none sampleDt).2 (by decide),
    (claim_C8_amended "SELECT 1" none none none none sampleDt).2 (by simp)⟩

/-- **C9.** When the `db_credentials` secret lookup fails, the
`execute_sql_script` step catches the failure, proceeds with mock
execution without credentials, and still returns a `status "success"`
result — identical, in fact, to the result it returns when the lookup
succeeds with any credential bundle. -/
theorem claim_C9_secret_failure_tolerated (script_name query : String) (elapsedMs : Nat) :
    (execute_sql_script (.error ()) script_name query elapsedMs).status = "success" ∧
    ∀ sec : DBSecret,
      execute_sql_script (.ok sec) script_name query elapsedMs =
        execute_sql_script (.error ()) script_name query elapsedMs :=
  ⟨rfl, fun _ => rfl⟩

/-- **C10.** `SQLQuery.execute(mock=True)` returns constant `status`
(`"success"`), `rows_affected` (42), `execution_time_ms` (150) and
`result_preview` (the same 3 rows with keys `id`, `name`, `email`)
for every record and every time, independent of the query text; hence
`extract_metadata` reports `execution_status "success"` and
`rows_affected 42` for every record. -/
theorem claim_C10_mock_execute_constant (s : SQLQuery) (now : Datetime)
    (secretLookup : Except String BQSecret) :
    (s.execute true now secretLookup).status = "success" ∧
    (s.execute true now secretLookup).rows_affected = some 42 ∧
    (s.execute true now secretLookup).execution_time_ms = some 150 ∧
    (s.execute true now secretLookup).result_preview = some
      [ [("id", .int 1), ("name", .str "John Doe"), ("email", .str "john@example.com")]
      , [("id", .int 2), ("name", .str "Jane Smith"), ("email", .str "jane@example.com")]
      , [("id", .int 3), ("name", .str "Bob Johnson"), ("email", .str "bob@example.com")] ] ∧
    (extract_metadata s now).lookup "execution_status" = some (.s "success") ∧
    (extract_metadata s now).lookup "rows_affected" = some (.i 42) :=
  ⟨rfl, rfl, rfl, rfl, rfl, rfl⟩

end ZenmlSql
